import Mathlib

/-!
Shallow embedding of the argcpp17 command-line parser (src/include/argcpp17.h,
the current revision of the header: the one declaring `err_missing_positional`,
`get_value`/`get_flag` and the templated `parse_value` layer).

Conventions of the embedding:
* `std::string` is modelled as `List Char` (`Str`); `s.substr(pos)` is
  `s.drop pos` guarded by the C++ precondition `pos <= s.size()` (violating it
  makes `substr` raise `std::out_of_range`, modelled as `Option.none` /
  the `oob` outcome), and `s.substr(pos, 1)` is `(s.drop pos).take 1`
  (well defined at every call site because of the guards in the source).
* exceptions become explicit result constructors. `CRes` is the outcome of a
  parse pass: `ok` carries the mutated state, `exn e` carries the thrown
  `argcpp17_exception` kind TOGETHER with the state as mutated up to the
  throw (C++ stack unwinding keeps in-place mutations), `oob` is an escaping
  `std::out_of_range` from `substr`, `ub` marks undefined behaviour (the
  source dereferences `args.end()` when a whitespace-separated key is the
  last token, and bitwise-ORs two non-null `argument*` pointers when both a
  mandatory and an optional match one token), and `spin` is fuel exhaustion
  of the embedding (never reached with fuel larger than the nesting depth).
* the recursion of `parser::parse_vector` through sub-command parsers is
  driven by explicit fuel so that every definition computes by `rfl`/`decide`.
-/

abbrev Str := List Char

def str (s : String) : Str := s.data

/-- The `argcpp17_exception::argcpp17_error` enumeration. -/
inductive Err : Type where
  | unknown
  | duplicateKeyword
  | unknownArguments
  | missingPositionals
  | subcommandNotFound
  | missingMandatory
  | missingPositional
deriving DecidableEq

/-- `class keyword`: a primary name plus an optional abbreviation. -/
structure Keyword where
  key : Str
  abbr : Option Str
deriving DecidableEq

/-- `keyword::operator==(const keyword&)`: true if the primary of either side
matches the primary or the (present) abbreviation of the other; two absent
abbreviations do NOT match thanks to the `has_value()` guard in the source. -/
def kwEqKw (a b : Keyword) : Bool :=
  decide (a.key = b.key) ||
  (match b.abbr with | some x => decide (a.key = x) | none => false) ||
  (match a.abbr with | some x => decide (x = b.key) | none => false) ||
  (match a.abbr, b.abbr with | some x, some y => decide (x = y) | _, _ => false)

/-- `keyword::operator==(const std::string&)`. -/
def kwEqStr (a : Keyword) (s : Str) : Bool :=
  decide (a.key = s) ||
  (match a.abbr with | some x => decide (x = s) | none => false)

/-- `class flag` (an `argument` with no payload; `is_set` is `is_parsed`). -/
structure FlagArg where
  key : Keyword
  descr : Str
  parsed : Bool
deriving DecidableEq

/-- `class optional_argument`: payload `std::optional<std::string>`. -/
structure OptArg where
  key : Keyword
  descr : Str
  parsed : Bool
  value : Option Str
deriving DecidableEq

/-- `class mandatory_argument`: payload `std::string`, default empty. -/
structure MandArg where
  key : Keyword
  descr : Str
  parsed : Bool
  value : Str
deriving DecidableEq

/-- `class positional_argument`: its base-class keyword is `keyword(name)`,
payload `std::string`. -/
structure PosArg where
  name : Str
  descr : Str
  parsed : Bool
  value : Str
deriving DecidableEq

/-- `class subcommand<T>`: an argument owning a nested parser `P`. -/
structure SubcmdG (P : Type) where
  key : Keyword
  descr : Str
  parsed : Bool
  sub : P

/-- `class parser`: the five ordered argument collections plus the flat
keyword registry used for duplicate detection. -/
inductive Parser : Type where
  | mk (kws : List Keyword) (subs : List (SubcmdG Parser)) (flags : List FlagArg)
       (mands : List MandArg) (opts : List OptArg) (poss : List PosArg)

abbrev Subcmd := SubcmdG Parser

def Parser.kwsOf : Parser → List Keyword
  | .mk k _ _ _ _ _ => k

def Parser.subsOf : Parser → List Subcmd
  | .mk _ s _ _ _ _ => s

def Parser.flagsOf : Parser → List FlagArg
  | .mk _ _ f _ _ _ => f

def Parser.mandsOf : Parser → List MandArg
  | .mk _ _ _ m _ _ => m

def Parser.optsOf : Parser → List OptArg
  | .mk _ _ _ _ o _ => o

def Parser.possOf : Parser → List PosArg
  | .mk _ _ _ _ _ p => p

def emptyParser : Parser := .mk [] [] [] [] [] []

/-- Outcome of a parse pass over state `α` (see the module docstring). -/
inductive CRes (α : Type) : Type where
  | ok (a : α)
  | exn (e : Err) (a : α)
  | oob
  | ub
  | spin

def CRes.isOk {α : Type} : CRes α → Bool
  | .ok _ => true
  | _ => false

def CRes.errKind {α : Type} : CRes α → Option Err
  | .exn e _ => some e
  | _ => none

def CRes.isUB {α : Type} : CRes α → Bool
  | .ub => true
  | _ => false

/-- Result of `parser::parse_subcommand`: `hit` means a sub-command matched and
its nested parse succeeded (the method returned `true`); `miss` means the
method returned `false` — either no sub-command matched the first token
(`err_subcommand_not_found` was thrown by `get_subcommand` and caught) or the
nested parse threw an `argcpp17_exception` that the `catch` block swallowed.
In both `miss` cases the caller continues with the token list and sub-command
states exactly as the method left them. -/
inductive DRes : Type where
  | hit (subs : List Subcmd) (args : List Str)
  | miss (subs : List Subcmd) (args : List Str)
  | oob
  | ub
  | spin

-- ==================================================================
-- keyword normalisation (`verify_argument_key`)
-- ==================================================================

/-- `std::string::substr(pos)`: suffix from `pos`, `std::out_of_range` (here
`none`) when `pos > size()`. -/
def cppSubstrFrom (s : Str) (pos : Nat) : Option Str :=
  if pos ≤ s.length then some (s.drop pos) else none

/-- `verify_argument_key`, exactly as written in the source: note that the
source compares `key.substr(2)` — the SUFFIX of the key from index 2 — with
the string "--" (and likewise `substr(1)` with "-"), not the first two
characters; `none` models an escaping `std::out_of_range`. -/
def verifyArgumentKey (k : Keyword) : Option Keyword :=
  match cppSubstrFrom k.key 2 with
  | none => none
  | some t2 =>
    let step1 : Option Str :=
      if t2 ≠ str "--" then some (str "--" ++ k.key)
      else match cppSubstrFrom k.key 1 with
        | none => none
        | some t1 => some (if t1 ≠ str "-" then str "-" ++ k.key else k.key)
    match step1 with
    | none => none
    | some key1 =>
      match k.abbr with
      | none => some ⟨key1, none⟩
      | some a =>
        match cppSubstrFrom a 1 with
        | none => none
        | some u1 => some ⟨key1, some (if u1 ≠ str "-" then '-' :: a else a)⟩

-- ==================================================================
-- option/mandatory token matching (`check_value_type`, `parse_argument_value`)
-- ==================================================================

/-- The `parser::argument_value_type` enumeration (`none` is `noSep` here). -/
inductive VType : Type where
  | noSep
  | oneString
  | equalSign
  | whitespace
  | colon
deriving DecidableEq

/-- `parser::check_value_type`: classify the separator right after the key
inside a combined token (precondition of every call site:
`arg.length() > key.length()`). -/
def checkValueType (key arg : Str) : VType × Str :=
  if (arg.drop key.length).take 1 = ['='] then
    (.equalSign, arg.drop (key.length + 1))
  else if (arg.drop key.length).take 1 = [':'] then
    (.colon, arg.drop (key.length + 1))
  else
    (.oneString, arg.drop key.length)

/-- Boolean strict comparison of lengths, used for the source's
`arg.length() > key.length()` guards (structurally recursive so that it
computes even when only a prefix of the second length is known). -/
def natLtB : Nat → Nat → Bool
  | _, 0 => false
  | 0, _ + 1 => true
  | n + 1, m + 1 => natLtB n m

/-- The predicate body of the `std::find_if` inside
`parser::parse_argument_value(arg, begin, end)`, for one candidate argument
with raw keyword `k`: outer `none` is an escaping `std::out_of_range` from
`verify_argument_key`; inner `none` means the candidate does not match. -/
def matchArgToken (k : Keyword) (arg : Str) : Option (Option (VType × Str)) :=
  match verifyArgumentKey k with
  | none => none
  | some nk =>
    let key := nk.key
    some (
      if decide (key = arg) ||
         (match nk.abbr with | some a => decide (a = arg) | none => false) then
        some (.whitespace, [])
      else if natLtB key.length arg.length && decide (arg.take key.length = key) then
        some (checkValueType key arg)
      else
        match nk.abbr with
        | none => none
        | some ab =>
          if natLtB ab.length arg.length && decide (arg.take ab.length = ab) then
            some (checkValueType ab arg)
          else none)

/-- The sequential `std::find_if` scan of one argument collection inside
`parse_argument_value`: first matching index together with the separator kind
and extracted value; outer `none` is an escaping `std::out_of_range`. -/
def scanKeys (keys : List Keyword) (arg : Str) : Option (Option (Nat × VType × Str)) :=
  match keys with
  | [] => some none
  | k :: rest =>
    match matchArgToken k arg with
    | none => none
    | some (some r) => some (some (0, r))
    | some none =>
      match scanKeys rest arg with
      | none => none
      | some none => some none
      | some (some (i, r)) => some (some (i + 1, r))

/-- Which collection `parse_argument_value` found the token in. -/
inductive Side : Type where
  | mand
  | opt
deriving DecidableEq

/-- Combined result of `parser::parse_argument_value(arg)`. `both` records
that a mandatory AND an optional argument matched: the source then bitwise-ORs
the two non-null `argument*` pointers, and dereferencing that value is
undefined behaviour. -/
inductive AVRes : Type where
  | oobEsc
  | nomatch
  | both
  | found (side : Side) (idx : Nat) (t : VType) (v : Str)

/-- `parser::parse_argument_value(arg)`: scan the mandatories, then the
optionals (both scans always run, in this order), then combine the two
results the way the pointer/enum bitwise ORs in the source do. -/
def parseArgumentValue (mands : List MandArg) (opts : List OptArg) (arg : Str) : AVRes :=
  match scanKeys (mands.map (·.key)) arg with
  | none => .oobEsc
  | some mres =>
    match scanKeys (opts.map (·.key)) arg with
    | none => .oobEsc
    | some ores =>
      match mres, ores with
      | some _, some _ => .both
      | some (i, t, v), none => .found .mand i t v
      | none, some (i, t, v) => .found .opt i t v
      | none, none => .nomatch

-- ==================================================================
-- the three token-consumption passes
-- ==================================================================

/-- Replace the element at index `i` (the C++ code mutates through the
iterator returned by `std::find_if`). -/
def updAt {α : Type} (l : List α) (i : Nat) (f : α → α) : List α :=
  match l, i with
  | [], _ => []
  | x :: xs, 0 => f x :: xs
  | x :: xs, i + 1 => x :: updAt xs i f

def markMand (m : MandArg) : MandArg := { m with parsed := true }

def markOpt (o : OptArg) : OptArg := { o with parsed := true }

def setMandValue (v : Str) (m : MandArg) : MandArg := { m with value := v }

def setOptValue (v : Str) (o : OptArg) : OptArg := { o with value := some v }

/-- The `while` loop of `parser::parse_options`: walk the token list, and for
every token some mandatory/optional argument claims, mark that argument,
extract the value (for the whitespace form the value is the NEXT token: the
source erases the key token and then dereferences the iterator, which is the
end iterator — undefined behaviour — whenever no token follows), store it and
erase the consumed token(s). -/
def parseOptionsLoop (mands : List MandArg) (opts : List OptArg) (args : List Str) :
    CRes (List MandArg × List OptArg × List Str) :=
  match args with
  | [] => .ok (mands, opts, [])
  | t :: ts =>
    match parseArgumentValue mands opts t with
    | .oobEsc => .oob
    | .both => .ub
    | .nomatch =>
      match parseOptionsLoop mands opts ts with
      | .ok (m, o, rest) => .ok (m, o, t :: rest)
      | .exn e (m, o, rest) => .exn e (m, o, t :: rest)
      | .oob => .oob
      | .ub => .ub
      | .spin => .spin
    | .found side i vt v =>
      let mands1 := if side = .mand then updAt mands i markMand else mands
      let opts1 := if side = .opt then updAt opts i markOpt else opts
      match vt with
      | .whitespace =>
        match ts with
        | [] => .ub
        | v2 :: ts2 =>
          let mands2 := if side = .mand then updAt mands1 i (setMandValue v2) else mands1
          let opts2 := if side = .opt then updAt opts1 i (setOptValue v2) else opts1
          parseOptionsLoop mands2 opts2 ts2
      | _ =>
        let mands2 := if side = .mand then updAt mands1 i (setMandValue v) else mands1
        let opts2 := if side = .opt then updAt opts1 i (setOptValue v) else opts1
        parseOptionsLoop mands2 opts2 ts

/-- `parser::check_mandatory` as a boolean: every mandatory marked parsed. -/
def allMandsParsed (mands : List MandArg) : Bool := mands.all (·.parsed)

/-- `parser::parse_options`: the consumption loop followed by
`check_mandatory`, which throws `err_missing_mandatory` when any mandatory
argument was not supplied. -/
def parseOptions (mands : List MandArg) (opts : List OptArg) (args : List Str) :
    CRes (List MandArg × List OptArg × List Str) :=
  match parseOptionsLoop mands opts args with
  | .ok (m, o, rest) =>
    if allMandsParsed m then .ok (m, o, rest) else .exn .missingMandatory (m, o, rest)
  | r => r

def markFlag (f : FlagArg) : FlagArg := { f with parsed := true }

/-- First flag whose keyword equals the token
(`argument::operator==(const std::string&)`). -/
def findFlagIdx (flags : List FlagArg) (t : Str) : Option Nat :=
  match flags with
  | [] => none
  | f :: rest =>
    if kwEqStr f.key t then some 0
    else (findFlagIdx rest t).map (· + 1)

/-- `parser::parse_flags`: consume every token equal to a registered flag
keyword, marking the first matching flag. -/
def parseFlags (flags : List FlagArg) (args : List Str) : List FlagArg × List Str :=
  match args with
  | [] => (flags, [])
  | t :: ts =>
    match findFlagIdx flags t with
    | none =>
      let (fs, rest) := parseFlags flags ts
      (fs, t :: rest)
    | some i => parseFlags (updAt flags i markFlag) ts

/-- The assignment loop of `parser::parse_positionals` (runs only when both
counts are equal): token i becomes the value of positional i, marked parsed. -/
def assignPoss (poss : List PosArg) (args : List Str) : List PosArg :=
  match poss, args with
  | ps, [] => ps
  | [], _ => []
  | p :: ps, a :: as_ => { p with value := a, parsed := true } :: assignPoss ps as_

/-- `parser::parse_positionals`: more remaining tokens than positionals throws
`err_unknown_arguments`, fewer throws `err_missing_positionals`; on equal
counts the tokens are assigned in order and `check_positional` (throwing
`err_missing_positional`) runs over the result. -/
def parsePositionals (poss : List PosArg) (args : List Str) :
    CRes (List PosArg × List Str) :=
  if poss.length < args.length then .exn .unknownArguments (poss, args)
  else if args.length < poss.length then .exn .missingPositionals (poss, args)
  else
    let ps := assignPoss poss args
    if ps.all (·.parsed) then .ok (ps, args) else .exn .missingPositional (ps, args)

-- ==================================================================
-- parse_vector and sub-command dispatch
-- ==================================================================

def resetFlag (f : FlagArg) : FlagArg := { f with parsed := false }

def resetOpt (o : OptArg) : OptArg := { o with parsed := false, value := none }

def resetMand (m : MandArg) : MandArg := { m with parsed := false, value := [] }

def resetPos (p : PosArg) : PosArg := { p with parsed := false, value := [] }

/-- `subcommand` inherits the base `argument::reset`: only the parsed flag is
cleared, the nested parser is reset lazily when it is itself parsed into. -/
def resetSub (s : Subcmd) : Subcmd := { s with parsed := false }

mutual
/-- `parser::parse_vector`: reset every declaration at this node, dispatch on
a sub-command when the (non-empty) token list starts with one — in which case
the method returns immediately — and otherwise run the option, flag and
positional passes in order. The first argument is recursion fuel. -/
def parseVector : Nat → Parser → List Str → CRes (Parser × List Str)
  | 0, _, _ => .spin
  | fuel + 1, .mk kws subs flags mands opts poss, args =>
    let flags0 := flags.map resetFlag
    let mands0 := mands.map resetMand
    let opts0 := opts.map resetOpt
    let poss0 := poss.map resetPos
    let d : DRes :=
      match args with
      | [] => .miss (subs.map resetSub) []
      | first :: rest => parseSubcommand fuel subs first rest
    match d with
    | .spin => .spin
    | .oob => .oob
    | .ub => .ub
    | .hit subs1 args1 => .ok (.mk kws subs1 flags0 mands0 opts0 poss0, args1)
    | .miss subs1 args1 =>
      match parseOptions mands0 opts0 args1 with
      | .spin => .spin
      | .oob => .oob
      | .ub => .ub
      | .exn e (m2, o2, args2) => .exn e (.mk kws subs1 flags0 m2 o2 poss0, args2)
      | .ok (m2, o2, args2) =>
        let fl := parseFlags flags0 args2
        match parsePositionals poss0 fl.2 with
        | .spin => .spin
        | .oob => .oob
        | .ub => .ub
        | .exn e (ps2, args4) => .exn e (.mk kws subs1 fl.1 m2 o2 ps2, args4)
        | .ok (ps2, args4) => .ok (.mk kws subs1 fl.1 m2 o2 ps2, args4)

/-- `parser::parse_subcommand` fused with the per-node reset of the
sub-command list: walk the sub-commands for the first one whose keyword
equals `keyword(args.front())`; on a match, erase the first token and parse
the rest with the nested parser. A successful nested parse marks the
sub-command parsed and yields `hit`; a nested `argcpp17_exception` is caught
and swallowed (`miss`), keeping the partially mutated nested parser and token
list; when no sub-command matches, the `err_subcommand_not_found` thrown by
`get_subcommand` is caught (`miss`) with the token list untouched. -/
def parseSubcommand : Nat → List Subcmd → Str → List Str → DRes
  | 0, _, _, _ => .spin
  | _ + 1, [], first, rest => .miss [] (first :: rest)
  | fuel + 1, s :: ss, first, rest =>
    if kwEqKw s.key ⟨first, none⟩ then
      match parseVector fuel s.sub rest with
      | .spin => .spin
      | .oob => .oob
      | .ub => .ub
      | .ok (np, nargs) => .hit ({ s with parsed := true, sub := np } :: ss.map resetSub) nargs
      | .exn _ (np, nargs) => .miss ({ s with parsed := false, sub := np } :: ss.map resetSub) nargs
    else
      match parseSubcommand fuel ss first rest with
      | .spin => .spin
      | .oob => .oob
      | .ub => .ub
      | .hit ss1 a => .hit (resetSub s :: ss1) a
      | .miss ss1 a => .miss (resetSub s :: ss1) a
end

-- ==================================================================
-- registration (`check_keyword` and the add methods)
-- ==================================================================

/-- `parser::check_keyword` as a boolean: some already registered keyword
equals the new one (`std::find` compares `existing == key`). -/
def checkKeyword (kws : List Keyword) (k : Keyword) : Bool :=
  kws.any (fun ex => kwEqKw ex k)

/-- `parser::add_subcommand`: the registered keyword is `keyword(key)` — the
plain name, no abbreviation — and the nested parser starts empty. -/
def addSubcommand (p : Parser) (name : Str) (descr : Str) : Except Err Parser :=
  let kw : Keyword := ⟨name, none⟩
  if checkKeyword p.kwsOf kw then .error .duplicateKeyword
  else .ok (.mk (p.kwsOf ++ [kw]) (p.subsOf ++ [⟨kw, descr, false, emptyParser⟩])
        p.flagsOf p.mandsOf p.optsOf p.possOf)

/-- `parser::add_flag`. -/
def addFlag (p : Parser) (k : Keyword) (descr : Str) : Except Err Parser :=
  if checkKeyword p.kwsOf k then .error .duplicateKeyword
  else .ok (.mk (p.kwsOf ++ [k]) p.subsOf (p.flagsOf ++ [⟨k, descr, false⟩])
        p.mandsOf p.optsOf p.possOf)

/-- `parser::add_mandatory_argument`. -/
def addMandatory (p : Parser) (k : Keyword) (descr : Str) : Except Err Parser :=
  if checkKeyword p.kwsOf k then .error .duplicateKeyword
  else .ok (.mk (p.kwsOf ++ [k]) p.subsOf p.flagsOf
        (p.mandsOf ++ [⟨k, descr, false, []⟩]) p.optsOf p.possOf)

/-- `parser::add_optional_argument`. -/
def addOptional (p : Parser) (k : Keyword) (descr : Str) : Except Err Parser :=
  if checkKeyword p.kwsOf k then .error .duplicateKeyword
  else .ok (.mk (p.kwsOf ++ [k]) p.subsOf p.flagsOf p.mandsOf
        (p.optsOf ++ [⟨k, descr, false, none⟩]) p.possOf)

/-- `parser::add_positional`: no uniqueness check at all, the name never
enters the keyword registry. -/
def addPositional (p : Parser) (name : Str) (descr : Str) : Parser :=
  .mk p.kwsOf p.subsOf p.flagsOf p.mandsOf p.optsOf
    (p.possOf ++ [⟨name, descr, false, []⟩])

/-- The four non-positional declaration kinds sharing `check_keyword`. -/
inductive RegKind : Type where
  | sub
  | flg
  | mand
  | opt
deriving DecidableEq

/-- The keyword a registration of the given kind actually records:
`add_subcommand` strips the abbreviation (it receives a plain string). -/
def regKeyword (kind : RegKind) (k : Keyword) : Keyword :=
  match kind with
  | .sub => ⟨k.key, none⟩
  | _ => k

/-- One non-positional registration of the given kind. -/
def regAdd (kind : RegKind) (p : Parser) (k : Keyword) (descr : Str) : Except Err Parser :=
  match kind with
  | .sub => addSubcommand p k.key descr
  | .flg => addFlag p k descr
  | .mand => addMandatory p k descr
  | .opt => addOptional p k descr

-- ==================================================================
-- value conversion (`parse_value`) and the typed accessors
-- ==================================================================

/-- The whitespace class of the default C++ locale, as used by the skipping
step of `operator>>`. -/
def isCppSpace (c : Char) : Bool :=
  c = ' ' || c = '\t' || c = '\n' || c = '\x0b' || c = '\x0c' || c = '\r'

def isDigitChar (c : Char) : Bool := '0' ≤ c && c ≤ '9'

def digitsToNat (ds : Str) : Nat :=
  ds.foldl (fun acc c => acc * 10 + (c.toNat - '0'.toNat)) 0

/-- `std::istringstream >> int` on the stored string, the conversion behind
`parse_value<int>`: skip leading whitespace, read an optional sign and a
digit run; extraction failure (no digits) stores 0 in the target since
C++11, and overflow clamps to the representable range with `failbit` set.
The extracted `int` value is returned; the stream state is not observable
through `parse_value`. -/
def istreamExtractInt (s : Str) : Int :=
  let s1 := s.dropWhile isCppSpace
  let (neg, s2) : Bool × Str :=
    match s1 with
    | '-' :: r => (true, r)
    | '+' :: r => (false, r)
    | r => (false, r)
  let ds := s2.takeWhile isDigitChar
  if ds = [] then 0
  else
    let n : Int := (digitsToNat ds : Int)
    let v : Int := if neg then -n else n
    max (-(2 ^ 31)) (min (2 ^ 31 - 1) v)

/-- `parse_value<std::optional<int>>`: absent stays absent, otherwise the
scalar conversion. -/
def parseValueIntOpt (v : Option Str) : Option Int := v.map istreamExtractInt

/-- `parser::find_option` over a keyed collection: first element whose
keyword equals the query (`argument::operator==(const keyword&)`). -/
def findByKw {α : Type} (keyOf : α → Keyword) (l : List α) (k : Keyword) : Option α :=
  l.find? (fun x => kwEqKw (keyOf x) k)

/-- `parser::get_flag`: the parsed state of the first flag whose keyword
equals the query, `false` when none matches; only the flag collection is
consulted and nothing can be thrown. -/
def getFlag (p : Parser) (k : Keyword) : Bool :=
  match findByKw (·.key) p.flagsOf k with
  | some f => f.parsed
  | none => false

/-- `parser::get_value<int>`: optionals first (their accessor yields an
absent value when the argument holds no string), then mandatories, then
positionals (both convert their plain-string payload). -/
def getValueInt (p : Parser) (k : Keyword) : Option Int :=
  match findByKw (·.key) p.optsOf k with
  | some o => parseValueIntOpt o.value
  | none =>
    match findByKw (·.key) p.mandsOf k with
    | some m => some (istreamExtractInt m.value)
    | none =>
      match findByKw (fun x => (⟨x.name, none⟩ : Keyword)) p.possOf k with
      | some q => some (istreamExtractInt q.value)
      | none => none

/-- `parser::get_value<std::string>`: the string conversion is the identity
(`parse_value<std::string>` returns its input unchanged). -/
def getValueStr (p : Parser) (k : Keyword) : Option Str :=
  match findByKw (·.key) p.optsOf k with
  | some o => o.value
  | none =>
    match findByKw (·.key) p.mandsOf k with
    | some m => some m.value
    | none =>
      match findByKw (fun x => (⟨x.name, none⟩ : Keyword)) p.possOf k with
      | some q => some q.value
      | none => none

-- ==================================================================
-- observers used by the claim statements
-- ==================================================================

def resParser {α : Type} : CRes (Parser × α) → Option Parser
  | .ok (p, _) => some p
  | _ => none

def subsParsedList (p : Parser) : List Bool := p.subsOf.map (·.parsed)

def mandsParsedList (p : Parser) : List Bool := p.mandsOf.map (·.parsed)

def flagsParsedList (p : Parser) : List Bool := p.flagsOf.map (·.parsed)

def optValuesList (p : Parser) : List (Option Str) := p.optsOf.map (·.value)

/-- The nested parsers owned by the sub-commands of a node. -/
def subParsersList (p : Parser) : List Parser := p.subsOf.map (·.sub)

-- ==================================================================
-- concrete parser configurations used by the claims
-- ==================================================================

/-- Unwrap a registration that is known to succeed (none of the concrete
configurations below ever trips the duplicate check). -/
def orEmptyP : Except Err Parser → Parser
  | .ok p => p
  | .error _ => emptyParser

/-- Registration through the nested-parser reference returned by
`add_subcommand`: apply further registrations to the parser of the most
recently added sub-command. -/
def intoLastSub : Parser → (Parser → Parser) → Parser
  | .mk kws subs flags mands opts poss, f =>
    .mk kws (updAt subs (subs.length - 1) (fun s => { s with sub := f s.sub }))
      flags mands opts poss

/-- The keyword of the optional argument of scenario E / the separator-form
scenarios. -/
def kwCount : Keyword := ⟨str "count", some (str "c")⟩

/-- A parser with the single optional argument `keyword("count", "c")`. -/
def c2P : Parser := orEmptyP (addOptional emptyParser kwCount [])

/-- The state `c2P` reaches after one parse supplied its optional with `v`. -/
def c2PWith (v : Str) : Parser := .mk [kwCount] [] [] [] [⟨kwCount, [], true, some v⟩] []

/-- The nested parser of the `sub` sub-command: one mandatory argument
`keyword("man", "m")`, never supplied in the runs below. -/
def c1Nested : Parser := orEmptyP (addMandatory emptyParser ⟨str "man", some (str "m")⟩ [])

/-- A root parser with the single sub-command `sub` whose nested parser is
`c1Nested`. -/
def c1Root : Parser :=
  intoLastSub (orEmptyP (addSubcommand emptyParser (str "sub") []))
    (fun q => orEmptyP (addMandatory q ⟨str "man", some (str "m")⟩ []))

/-- A root parser with a mandatory argument `keyword("out", "o")` AND a
sub-command `build` (with an empty nested parser). -/
def c4Root : Parser :=
  orEmptyP (addSubcommand
    (orEmptyP (addMandatory emptyParser ⟨str "out", some (str "o")⟩ [])) (str "build") [])

/-- A parser with only the mandatory argument `keyword("out", "o")`. -/
def c4MandOnly : Parser := orEmptyP (addMandatory emptyParser ⟨str "out", some (str "o")⟩ [])

/-- Scenario C: root flag `release`, sub-command `build` whose nested parser
has its own flag `release`. -/
def c7Root : Parser :=
  intoLastSub
    (orEmptyP (addSubcommand
      (orEmptyP (addFlag emptyParser ⟨str "release", none⟩ [])) (str "build") []))
    (fun q => orEmptyP (addFlag q ⟨str "release", none⟩ []))

/-- Scenario D: two positional arguments `a` and `b`. -/
def c8P : Parser := addPositional (addPositional emptyParser (str "a") []) (str "b") []

/-- Two flags with keywords `a` and `b` (registration accepts both: the
keywords are not equal, having no abbreviations). -/
def c10P : Parser :=
  orEmptyP (addFlag (orEmptyP (addFlag emptyParser ⟨str "a", none⟩ [])) ⟨str "b", none⟩ [])

/-- The query keyword whose primary matches the first flag of `c10P` and
whose abbreviation matches the second. -/
def kwAB : Keyword := ⟨str "a", some (str "b")⟩


-- ==================================================================
-- helper lemmas
-- ==================================================================

theorem and_false_of_right {a b : Bool} (h : b = false) : (a && b) = false := by
  cases a <;> simp [h]

theorem any_all_not_contra {l : List Subcmd}
    (h1 : l.any (·.parsed) = true) (h2 : l.all (fun s => !s.parsed) = true) : False := by
  induction l with
  | nil => simp at h1
  | cons s ss ih =>
    simp only [List.any_cons, List.all_cons, Bool.and_eq_true, Bool.or_eq_true] at h1 h2
    rcases h1 with h1 | h1
    · rw [h1] at h2; simp at h2
    · exact ih h1 h2.2

-- ==================================================================
-- claim theorems
-- ==================================================================

/-- C7: parsing `["build", "release"]` with a root parser that has the
sub-command `build` (nested flag `release`) and its own root flag `release`
succeeds, marks the sub-command parsed, sets the nested parser's `release`
flag and leaves the root's own `release` flag unset. -/
theorem c7_subcommand_shadows_root_flag :
    (parseVector 9 c7Root [str "build", str "release"]).isOk = true ∧
    (resParser (parseVector 9 c7Root [str "build", str "release"])).map subsParsedList
      = some [true] ∧
    (resParser (parseVector 9 c7Root [str "build", str "release"])).map
        (fun p => (subParsersList p).map flagsParsedList) = some [[true]] ∧
    (resParser (parseVector 9 c7Root [str "build", str "release"])).map flagsParsedList
      = some [false] :=
  ⟨rfl, rfl, rfl, rfl⟩

/-- C2 counterexample: with the integer-typed optional `keyword("count","c")`
and input `["-c:abc"]`, the parse call succeeds but the typed integer
accessor returns a PRESENT value 0 — not an empty `Option` as the claim
states — because a failed `istringstream` extraction stores 0. -/
theorem c2_counterexample :
    (parseVector 9 c2P [str "-c:abc"]).isOk = true ∧
    (resParser (parseVector 9 c2P [str "-c:abc"])).map (fun p => getValueInt p ⟨str "count", none⟩)
      = some (some 0) ∧
    (some (some 0) : Option (Option Int)) ≠ some none :=
  ⟨rfl, rfl, by decide⟩

/-- C2 amended: the parse call itself succeeds, and the typed integer accessor
yields the present value 0 for the unconvertible string "abc" (stream
extraction failure zero-fills the target); an absent value from the accessor
indicates only that the key was never supplied, as after parsing `[]`. -/
theorem c2_conversion_failure_reads_zero :
    (parseVector 9 c2P [str "-c:abc"]).isOk = true ∧
    (resParser (parseVector 9 c2P [str "-c:abc"])).map (fun p => getValueInt p ⟨str "count", none⟩)
      = some (some 0) ∧
    (parseVector 9 c2P []).isOk = true ∧
    (resParser (parseVector 9 c2P [])).map (fun p => getValueInt p ⟨str "count", none⟩)
      = some none :=
  ⟨rfl, rfl, rfl, rfl⟩

/-- C5: `verify_argument_key` evaluated at the already-normalized keyword
`keyword("--out", "-o")` does not return it unchanged — it prepends the
prefixes again (the source compares `substr(2)`, the suffix from index 2,
with "--" instead of the first two characters) — and a primary name such as
"ab--" (whose suffix from index 2 IS "--") ends up with a single dash, so
the result does not even begin with "--". -/
theorem c5_normalization_not_idempotent :
    verifyArgumentKey ⟨str "--out", some (str "-o")⟩
      = some ⟨str "----out", some (str "--o")⟩ ∧
    verifyArgumentKey ⟨str "ab--", none⟩ = some ⟨str "-ab--", none⟩ ∧
    some (⟨str "----out", some (str "--o")⟩ : Keyword)
      ≠ some (⟨str "--out", some (str "-o")⟩ : Keyword) ∧
    (str "-ab--").take 2 ≠ str "--" :=
  ⟨rfl, rfl, by decide, by decide⟩

/-- C4 counterexample: `c4Root` registers the mandatory `keyword("out","o")`
and the sub-command `build`; parsing `["build"]` supplies the mandatory with
nothing, yet the parse SUCCEEDS (the sub-command dispatch returns before
`check_mandatory` ever runs) and the mandatory is left unparsed. -/
theorem c4_counterexample :
    (parseVector 9 c4Root [str "build"]).isOk = true ∧
    (resParser (parseVector 9 c4Root [str "build"])).map mandsParsedList = some [false] :=
  ⟨rfl, rfl⟩

/-- C8 counterexample: with the two positionals `a`, `b` of scenario D, the
input `["x"]` fails with `err_missing_positionals` — the PLURAL kind thrown
by the count check in `parse_positionals` — and not with
`err_missing_positional` as the claim states. -/
theorem c8_counterexample :
    (parseVector 9 c8P [str "x"]).errKind = some Err.missingPositionals ∧
    Err.missingPositionals ≠ Err.missingPositional :=
  ⟨rfl, by decide⟩

/-- C10 counterexample: `c10P` has the flags `a` and `b`; after parsing
`["b"]` the second flag is parsed, and the query keyword
`keyword("a", "b")` equals a registered flag that IS parsed — yet `get_flag`
returns false, because it reports the FIRST matching flag (`a`, unparsed). -/
theorem c10_counterexample :
    (resParser (parseVector 9 c10P [str "b"])).map (fun p => getFlag p kwAB) = some false ∧
    (resParser (parseVector 9 c10P [str "b"])).map
        (fun p => p.flagsOf.any (fun f => kwEqKw f.key kwAB && f.parsed)) = some true :=
  ⟨rfl, rfl⟩

/-- C1 counterexample: the nested parser of the `sub` sub-command of `c1Root`
has an unsupplied mandatory argument, so its recursive parse raises
`err_missing_mandatory`; the claim says such an error propagates to the
external caller of `parse`, but the outer parse of `["sub"]` SUCCEEDS —
the `catch` in `parse_subcommand` swallows every `argcpp17_exception` kind. -/
theorem c1_counterexample :
    (parseVector 8 c1Nested []).errKind = some Err.missingMandatory ∧
    (parseVector 9 c1Root [str "sub"]).isOk = true :=
  ⟨rfl, rfl⟩

/-- C3 counterexample: with the keyed optional `keyword("count","c")`, a
token vector ending in the bare key (whitespace-separated form, no value
token following) makes `parse_options` erase the key token and dereference
the end iterator: the run reaches the out-of-bounds access marker instead of
being well defined and producing no value. -/
theorem c3_counterexample :
    (parseVector 9 c2P [str "--count"]).isUB = true ∧
    (parseVector 9 c2P [str "-c"]).isUB = true :=
  ⟨rfl, rfl⟩

/-- C6 counterexample: for the value string "=x", the glued form — the key
immediately followed by the value — is the token "--count=x", which the
engine reads as the equals-separated form: the argument ends up holding "x",
not "=x", so the four separator forms do not agree on every value string. -/
theorem c6_counterexample :
    (resParser (parseVector 9 c2P [str "--count" ++ str "=x"])).map
        (fun p => getValueStr p ⟨str "count", none⟩) = some (some (str "x")) ∧
    str "x" ≠ str "=x" :=
  ⟨rfl, by decide⟩

/-- C1 amended: `err_subcommand_not_found` indeed never escapes, but it is
not alone — the `catch (argcpp17_exception&)` in `parse_subcommand` swallows
EVERY argcpp17 error kind raised while recursively parsing a matched
sub-command's nested parser: dispatch then reports no match (keeping the
partially mutated nested parser and token list) and the root parser carries
on with its own passes, as the concrete run of `c1Root` on `["sub"]` shows. -/
theorem c1_nested_errors_swallowed :
    (∀ (fuel : Nat) (k : Keyword) (d : Str) (b : Bool) (sp : Parser) (ss : List Subcmd)
        (first : Str) (rest : List Str) (e : Err) (np : Parser) (nargs : List Str),
        kwEqKw k ⟨first, none⟩ = true →
        parseVector fuel sp rest = .exn e (np, nargs) →
        parseSubcommand (fuel + 1) (⟨k, d, b, sp⟩ :: ss) first rest =
          .miss (⟨k, d, false, np⟩ :: ss.map resetSub) nargs) ∧
    (parseVector 9 c1Root [str "sub"]).isOk = true := by
  constructor
  · intro fuel k d b sp ss first rest e np nargs h1 h2
    simp [parseSubcommand, h1, h2]
  · rfl

theorem c1_witness :
    parseSubcommand 9 [⟨⟨str "sub", none⟩, [], false, c1Nested⟩] (str "sub") [] =
      .miss [⟨⟨str "sub", none⟩, [], false, c1Nested⟩] [] :=
  c1_nested_errors_swallowed.1 8 ⟨str "sub", none⟩ [] false c1Nested [] (str "sub") []
    .missingMandatory c1Nested [] (by decide) rfl

/-- C3 amended: when a whitespace-form key match is the LAST remaining token,
`parse_options` is not well defined: it erases the key token and then reads
`*it` with `it == args.end()` — the loop hits the out-of-bounds marker
instead of silently producing no value. -/
theorem c3_trailing_key_is_out_of_bounds :
    ∀ (mands : List MandArg) (opts : List OptArg) (t : Str) (side : Side) (i : Nat) (v : Str),
      parseArgumentValue mands opts t = .found side i .whitespace v →
      parseOptionsLoop mands opts [t] = .ub := by
  intro mands opts t side i v h
  simp [parseOptionsLoop, h]

theorem c3_witness :
    parseOptionsLoop [] [⟨kwCount, [], false, none⟩] [str "--count"] = .ub :=
  c3_trailing_key_is_out_of_bounds [] [⟨kwCount, [], false, none⟩] (str "--count")
    .opt 0 [] rfl

/-- C8 amended: with more remaining tokens than registered positionals the
parse fails with `err_unknown_arguments`, with fewer it fails with
`err_missing_positionals` — the PLURAL kind from the count check; the
singular `err_missing_positional` is thrown only by `check_positional`,
which is unreachable after an equal-count assignment. Scenario D follows. -/
theorem c8_positional_count_errors :
    (∀ (poss : List PosArg) (args : List Str), poss.length < args.length →
        parsePositionals poss args = .exn .unknownArguments (poss, args)) ∧
    (∀ (poss : List PosArg) (args : List Str), args.length < poss.length →
        parsePositionals poss args = .exn .missingPositionals (poss, args)) ∧
    (parseVector 9 c8P [str "x", str "y", str "z"]).errKind = some Err.unknownArguments ∧
    (parseVector 9 c8P [str "x"]).errKind = some Err.missingPositionals := by
  refine ⟨?_, ?_, rfl, rfl⟩
  · intro poss args h
    simp [parsePositionals, h]
  · intro poss args h
    have h2 : ¬ poss.length < args.length := by omega
    simp [parsePositionals, h, h2]

theorem c8_witness :
    parsePositionals [] [str "x"] = .exn .unknownArguments ([], [str "x"]) ∧
    parsePositionals [⟨str "a", [], false, []⟩] [] =
      .exn .missingPositionals ([⟨str "a", [], false, []⟩], []) :=
  ⟨c8_positional_count_errors.1 [] [str "x"] (by decide),
   c8_positional_count_errors.2.1 [⟨str "a", [], false, []⟩] [] (by decide)⟩

/-- C9: at one parser node, after any successful non-positional registration
(sub-command, flag, mandatory or optional) with keyword `k1`, a second
non-positional registration of ANY kind whose recorded keyword equals the
first under the permissive keyword equality fails with
`err_duplicate_keyword`; positional registrations perform no check and
always extend the positional list, even with repeated names. -/
theorem c9_duplicate_keyword_rejected :
    (∀ (kind1 kind2 : RegKind) (p p1 : Parser) (k1 k2 : Keyword) (d1 d2 : Str),
        regAdd kind1 p k1 d1 = .ok p1 →
        kwEqKw (regKeyword kind1 k1) (regKeyword kind2 k2) = true →
        regAdd kind2 p1 k2 d2 = .error .duplicateKeyword) ∧
    (∀ (p : Parser) (n1 n2 d1 d2 : Str),
        (addPositional (addPositional p n1 d1) n2 d2).possOf.length
          = p.possOf.length + 2) := by
  constructor
  · intro kind1 kind2 p p1 k1 k2 d1 d2 h1 h2
    have hkws : p1.kwsOf = p.kwsOf ++ [regKeyword kind1 k1] := by
      cases kind1 <;>
        simp only [regAdd, addSubcommand, addFlag, addMandatory, addOptional,
          regKeyword] at h1 <;>
        split at h1 <;>
        simp_all [Parser.kwsOf] <;>
        exact (congrArg Parser.kwsOf h1.symm)
    have hchk : checkKeyword p1.kwsOf (regKeyword kind2 k2) = true := by
      rw [hkws]
      simp [checkKeyword, List.any_append, h2]
    cases kind2 <;>
      simp [regAdd, addSubcommand, addFlag, addMandatory, addOptional, regKeyword] at hchk ⊢ <;>
      simp [hchk]
  · intro p n1 n2 d1 d2
    simp [addPositional, Parser.possOf]

theorem c9_witness :
    regAdd .mand
      (Parser.mk [⟨str "a", some (str "b")⟩] []
        [⟨⟨str "a", some (str "b")⟩, [], false⟩] [] [] []) ⟨str "b", none⟩ []
      = .error .duplicateKeyword :=
  c9_duplicate_keyword_rejected.1 .flg .mand emptyParser
    (Parser.mk [⟨str "a", some (str "b")⟩] []
      [⟨⟨str "a", some (str "b")⟩, [], false⟩] [] [] [])
    ⟨str "a", some (str "b")⟩ ⟨str "b", none⟩ [] [] rfl (by decide)

theorem findParsed_first_match (flags : List FlagArg) (k : Keyword) :
    (match flags.find? (fun f => kwEqKw f.key k) with
     | some f => f.parsed
     | none => false) = true ↔
    ∃ (i : Nat) (f : FlagArg), flags[i]? = some f ∧ kwEqKw f.key k = true ∧ f.parsed = true ∧
      ∀ (j : Nat) (g : FlagArg), j < i → flags[j]? = some g → kwEqKw g.key k = false := by
  induction flags with
  | nil => simp
  | cons a l ih =>
    cases ha : kwEqKw a.key k with
    | true =>
      have hfind : List.find? (fun f => kwEqKw f.key k) (a :: l) = some a := by
        simp [List.find?, ha]
      rw [hfind]
      constructor
      · intro hp
        exact ⟨0, a, List.getElem?_cons_zero, ha, hp,
          fun j g hj _ => absurd hj (Nat.not_lt_zero j)⟩
      · rintro ⟨i, f, hif, hkw, hp, hmin⟩
        cases i with
        | zero =>
          rw [List.getElem?_cons_zero] at hif
          cases hif
          exact hp
        | succ n =>
          have h0 := hmin 0 a (Nat.succ_pos n) List.getElem?_cons_zero
          rw [ha] at h0
          cases h0
    | false =>
      have hfind : List.find? (fun f => kwEqKw f.key k) (a :: l)
          = List.find? (fun f => kwEqKw f.key k) l := by
        simp [List.find?, ha]
      rw [hfind]
      rw [ih]
      constructor
      · rintro ⟨i, f, hif, hkw, hp, hmin⟩
        refine ⟨i + 1, f, by rw [List.getElem?_cons_succ]; exact hif, hkw, hp, ?_⟩
        intro j g hj hjg
        cases j with
        | zero =>
          rw [List.getElem?_cons_zero] at hjg
          cases hjg
          exact ha
        | succ m =>
          rw [List.getElem?_cons_succ] at hjg
          exact hmin m g (Nat.lt_of_succ_lt_succ hj) hjg
      · rintro ⟨i, f, hif, hkw, hp, hmin⟩
        cases i with
        | zero =>
          rw [List.getElem?_cons_zero] at hif
          cases hif
          rw [ha] at hkw
          cases hkw
        | succ n =>
          rw [List.getElem?_cons_succ] at hif
          refine ⟨n, f, hif, hkw, hp, ?_⟩
          intro j g hj hjg
          exact hmin (j + 1) g (Nat.succ_lt_succ hj)
            (by rw [List.getElem?_cons_succ]; exact hjg)

/-- C10 amended: `get_flag` never raises (it is a total boolean) and consults
only the flag collection; it returns true exactly when the FIRST registered
flag whose keyword equals the query — not an arbitrary matching flag — is
marked parsed, and false when no flag matches. -/
theorem c10_get_flag_first_match :
    (∀ (p : Parser) (k : Keyword),
        getFlag p k = true ↔
        ∃ (i : Nat) (f : FlagArg), p.flagsOf[i]? = some f ∧ kwEqKw f.key k = true ∧ f.parsed = true ∧
          ∀ (j : Nat) (g : FlagArg), j < i → p.flagsOf[j]? = some g → kwEqKw g.key k = false) ∧
    (∀ (kws : List Keyword) (subs : List Subcmd) (flags : List FlagArg)
        (mands : List MandArg) (opts : List OptArg) (poss : List PosArg) (k : Keyword),
        getFlag (.mk kws subs flags mands opts poss) k
          = getFlag (.mk [] [] flags [] [] []) k) := by
  constructor
  · intro p k
    exact findParsed_first_match p.flagsOf k
  · intro kws subs flags mands opts poss k
    rfl

theorem c10_witness :
    getFlag (Parser.mk [] [] [⟨⟨str "a", none⟩, [], true⟩] [] [] []) ⟨str "a", none⟩
      = true :=
  (c10_get_flag_first_match.1 _ _).mpr
    ⟨0, ⟨⟨str "a", none⟩, [], true⟩, rfl, by decide, rfl,
      fun j g hj _ => absurd hj (Nat.not_lt_zero j)⟩

theorem parseSubcommand_hit_any :
    ∀ (fuel : Nat) (subs : List Subcmd) (first : Str) (rest : List Str)
      (subs1 : List Subcmd) (args1 : List Str),
      parseSubcommand fuel subs first rest = .hit subs1 args1 →
      subs1.any (·.parsed) = true := by
  intro fuel
  induction fuel with
  | zero =>
    intro subs first rest subs1 args1 h
    simp [parseSubcommand] at h
  | succ f ih =>
    intro subs first rest subs1 args1 h
    cases subs with
    | nil => simp [parseSubcommand] at h
    | cons s ss =>
      cases hb : kwEqKw s.key ⟨first, none⟩ with
      | true =>
        simp only [parseSubcommand, hb, if_true] at h
        cases hr : parseVector f s.sub rest with
        | ok a =>
          obtain ⟨np, nargs⟩ := a
          rw [hr] at h
          simp only [] at h
          cases h
          simp
        | exn e a =>
          obtain ⟨np, nargs⟩ := a
          rw [hr] at h
          simp at h
        | oob => rw [hr] at h; simp at h
        | ub => rw [hr] at h; simp at h
        | spin => rw [hr] at h; simp at h
      | false =>
        simp only [parseSubcommand, hb, Bool.false_eq_true, if_false] at h
        cases hr : parseSubcommand f ss first rest with
        | hit ss1 a =>
          rw [hr] at h
          simp only [] at h
          cases h
          have hany := ih ss first rest ss1 _ hr
          simp [resetSub, hany]
        | miss ss1 a => rw [hr] at h; simp at h
        | oob => rw [hr] at h; simp at h
        | ub => rw [hr] at h; simp at h
        | spin => rw [hr] at h; simp at h

theorem parseOptions_ok_all_mands :
    ∀ (m : List MandArg) (o : List OptArg) (a : List Str)
      (m2 : List MandArg) (o2 : List OptArg) (a2 : List Str),
      parseOptions m o a = .ok (m2, o2, a2) → allMandsParsed m2 = true := by
  intro m o a m2 o2 a2 h
  unfold parseOptions at h
  split at h
  · split at h
    · cases h
      assumption
    · simp at h
  · simp_all

theorem subs_any_all_false {l : List Subcmd}
    (h1 : l.any (·.parsed) = true) (h2 : l.all (fun s => !s.parsed) = true) : False :=
  any_all_not_contra h1 h2

/-- C4 amended: the `MissingMandatory` guarantee holds for every parse in
which no sub-command was dispatched (in particular for the empty token vector
and for unrecognized tokens): a successful parse with every sub-command left
unparsed implies every mandatory argument was supplied, and an unsupplied
mandatory makes `parse_options` throw `err_missing_mandatory`. When the
first token names a registered sub-command, however, `parse_vector` returns
straight after dispatch and the root's mandatory check is skipped entirely
(see the counterexample). -/
theorem c4_mandatory_check_unless_dispatch :
    (∀ (fuel : Nat) (p : Parser) (args : List Str) (q : Parser) (rest : List Str),
        parseVector fuel p args = .ok (q, rest) →
        q.subsOf.all (fun s => !s.parsed) = true →
        allMandsParsed q.mandsOf = true) ∧
    (∀ (m : List MandArg) (o : List OptArg) (a : List Str)
        (m1 : List MandArg) (o1 : List OptArg) (a1 : List Str),
        parseOptionsLoop m o a = .ok (m1, o1, a1) → allMandsParsed m1 = false →
        parseOptions m o a = .exn .missingMandatory (m1, o1, a1)) ∧
    (parseVector 9 c4MandOnly []).errKind = some Err.missingMandatory ∧
    (parseVector 9 c4MandOnly [str "input"]).errKind = some Err.missingMandatory := by
  refine ⟨?_, ?_, rfl, rfl⟩
  · intro fuel p args q rest h hsub
    cases fuel with
    | zero => simp [parseVector] at h
    | succ f =>
      cases p with
      | mk kws subs flags mands opts poss =>
        cases args with
        | nil =>
          simp only [parseVector] at h
          split at h
          · simp at h
          · simp at h
          · simp at h
          · simp at h
          · rename_i m2 o2 args2 heq
            split at h
            · simp at h
            · simp at h
            · simp at h
            · simp at h
            · cases h
              simp only [Parser.mandsOf]
              exact parseOptions_ok_all_mands _ _ _ _ _ _ heq
        | cons first rest0 =>
          simp only [parseVector] at h
          split at h
          · simp at h
          · simp at h
          · simp at h
          · rename_i heq
            cases h
            exact (any_all_not_contra (parseSubcommand_hit_any _ _ _ _ _ _ heq)
              (by simpa [Parser.subsOf] using hsub)).elim
          · split at h
            · simp at h
            · simp at h
            · simp at h
            · simp at h
            · rename_i m2 o2 args2 heq2
              split at h
              · simp at h
              · simp at h
              · simp at h
              · simp at h
              · cases h
                simp only [Parser.mandsOf]
                exact parseOptions_ok_all_mands _ _ _ _ _ _ heq2
  · intro m o a m1 o1 a1 h1 h2
    unfold parseOptions
    rw [h1]
    simp [h2]

theorem c4_witness :
    allMandsParsed (Parser.mk [⟨str "out", some (str "o")⟩] [] []
      [⟨⟨str "out", some (str "o")⟩, [], true, str "v"⟩] [] []).mandsOf = true ∧
    parseOptions [⟨⟨str "out", some (str "o")⟩, [], false, []⟩] [] [] =
      .exn .missingMandatory ([⟨⟨str "out", some (str "o")⟩, [], false, []⟩], [], []) :=
  ⟨c4_mandatory_check_unless_dispatch.1 3 c4MandOnly [str "--out", str "v"]
      (Parser.mk [⟨str "out", some (str "o")⟩] [] []
        [⟨⟨str "out", some (str "o")⟩, [], true, str "v"⟩] [] []) [] rfl rfl,
   c4_mandatory_check_unless_dispatch.2.1
      [⟨⟨str "out", some (str "o")⟩, [], false, []⟩] [] []
      [⟨⟨str "out", some (str "o")⟩, [], false, []⟩] [] [] rfl rfl⟩

theorem ite_and_false {α : Type} (a b : Bool) (hb : b = false) (x y : α) :
    (if (a && b) = true then x else y) = y := by
  simp [hb]

theorem matchGluedPrimary (c : Char) (w : List Char) (h1 : c ≠ '=') (h2 : c ≠ ':') :
    matchArgToken kwCount (str "--count" ++ c :: w) = some (some (.oneString, c :: w)) := by
  show some (some (if ([c] : List Char) = ['='] then ((VType.equalSign, w) : VType × Str)
      else if ([c] : List Char) = [':'] then (VType.colon, w)
      else (VType.oneString, c :: w))) = some (some ((VType.oneString, c :: w) : VType × Str))
  rw [if_neg (by simp [h1]), if_neg (by simp [h2])]

theorem matchGluedAbbr (c : Char) (w : List Char) (h1 : c ≠ '=') (h2 : c ≠ ':') :
    matchArgToken kwCount (str "-c" ++ c :: w) = some (some (.oneString, c :: w)) := by
  have hb : decide (List.take (List.length (str "--count")) (str "-c" ++ c :: w)
      = str "--count") = false := rfl
  show some (
      if (natLtB (List.length (str "--count")) (List.length (str "-c" ++ c :: w)) &&
          decide (List.take (List.length (str "--count")) (str "-c" ++ c :: w)
            = str "--count")) = true then
        some (checkValueType (str "--count") (str "-c" ++ c :: w))
      else some (if ([c] : List Char) = ['='] then ((VType.equalSign, w) : VType × Str)
                 else if ([c] : List Char) = [':'] then (VType.colon, w)
                 else (VType.oneString, c :: w)))
    = some (some ((VType.oneString, c :: w) : VType × Str))
  rw [ite_and_false _ _ hb, if_neg (by simp [h1]), if_neg (by simp [h2])]

theorem matchEqAbbr (c : Char) (w : List Char) :
    matchArgToken kwCount (str "-c=" ++ c :: w) = some (some (.equalSign, c :: w)) := by
  have hb : decide (List.take (List.length (str "--count")) (str "-c=" ++ c :: w)
      = str "--count") = false := rfl
  show some (
      if (natLtB (List.length (str "--count")) (List.length (str "-c=" ++ c :: w)) &&
          decide (List.take (List.length (str "--count")) (str "-c=" ++ c :: w)
            = str "--count")) = true then
        some (checkValueType (str "--count") (str "-c=" ++ c :: w))
      else some ((VType.equalSign, c :: w) : VType × Str))
    = some (some ((VType.equalSign, c :: w) : VType × Str))
  rw [ite_and_false _ _ hb]

theorem matchColonAbbr (c : Char) (w : List Char) :
    matchArgToken kwCount (str "-c:" ++ c :: w) = some (some (.colon, c :: w)) := by
  have hb : decide (List.take (List.length (str "--count")) (str "-c:" ++ c :: w)
      = str "--count") = false := rfl
  show some (
      if (natLtB (List.length (str "--count")) (List.length (str "-c:" ++ c :: w)) &&
          decide (List.take (List.length (str "--count")) (str "-c:" ++ c :: w)
            = str "--count")) = true then
        some (checkValueType (str "--count") (str "-c:" ++ c :: w))
      else some ((VType.colon, c :: w) : VType × Str))
    = some (some ((VType.colon, c :: w) : VType × Str))
  rw [ite_and_false _ _ hb]

theorem singleOptOptions (t : Str) (v : Str) (vt : VType) (hvt : vt ≠ .whitespace)
    (h : matchArgToken kwCount t = some (some (vt, v))) :
    parseOptions [] [⟨kwCount, [], false, none⟩] [t]
      = .ok ([], [⟨kwCount, [], true, some v⟩], []) := by
  have hav : parseArgumentValue [] [⟨kwCount, [], false, none⟩] t = .found .opt 0 vt v := by
    simp [parseArgumentValue, scanKeys, h]
  have hloop : parseOptionsLoop [] [⟨kwCount, [], false, none⟩] [t]
      = .ok ([], [⟨kwCount, [], true, some v⟩], []) := by
    simp only [parseOptionsLoop, hav]
    cases vt with
    | whitespace => exact absurd rfl hvt
    | noSep => rfl
    | oneString => rfl
    | equalSign => rfl
    | colon => rfl
  simp [parseOptions, hloop, allMandsParsed]

theorem liftNoSubs (t : Str) (ts : List Str) (m2 : List MandArg) (o2 : List OptArg)
    (kws : List Keyword) (mands : List MandArg) (opts : List OptArg)
    (h : parseOptions (mands.map resetMand) (opts.map resetOpt) (t :: ts) = .ok (m2, o2, [])) :
    parseVector 2 (Parser.mk kws [] [] mands opts []) (t :: ts)
      = .ok (.mk kws [] [] m2 o2 [], []) := by
  simp only [parseVector, parseSubcommand]
  rw [h]
  rfl

/-- C6 amended: for the optional argument `keyword("count","c")` and any value
string `v` that is nonempty and whose first character is neither the equals
sign nor the colon, all four separator forms — whitespace-separated, glued,
equals-separated and colon-separated, through the primary name or the
abbreviation — leave the argument parsed and holding the identical value `v`.
(The restriction is forced: a glued value starting with a separator character
has that character stripped as a separator, and an empty glued value
degenerates into the bare key, the whitespace form.) -/
theorem c6_separator_forms (c : Char) (w : List Char) (h1 : c ≠ '=') (h2 : c ≠ ':') :
    parseVector 2 c2P [str "--count", c :: w] = .ok (c2PWith (c :: w), []) ∧
    parseVector 2 c2P [str "--count" ++ c :: w] = .ok (c2PWith (c :: w), []) ∧
    parseVector 2 c2P [str "--count=" ++ c :: w] = .ok (c2PWith (c :: w), []) ∧
    parseVector 2 c2P [str "--count:" ++ c :: w] = .ok (c2PWith (c :: w), []) ∧
    parseVector 2 c2P [str "-c", c :: w] = .ok (c2PWith (c :: w), []) ∧
    parseVector 2 c2P [str "-c" ++ c :: w] = .ok (c2PWith (c :: w), []) ∧
    parseVector 2 c2P [str "-c=" ++ c :: w] = .ok (c2PWith (c :: w), []) ∧
    parseVector 2 c2P [str "-c:" ++ c :: w] = .ok (c2PWith (c :: w), []) :=
  ⟨rfl,
   liftNoSubs _ [] [] _ [kwCount] [] [⟨kwCount, [], false, none⟩]
     (singleOptOptions _ _ .oneString (by simp) (matchGluedPrimary c w h1 h2)),
   liftNoSubs _ [] [] _ [kwCount] [] [⟨kwCount, [], false, none⟩]
     (singleOptOptions _ _ .equalSign (by simp) rfl),
   liftNoSubs _ [] [] _ [kwCount] [] [⟨kwCount, [], false, none⟩]
     (singleOptOptions _ _ .colon (by simp) rfl),
   rfl,
   liftNoSubs _ [] [] _ [kwCount] [] [⟨kwCount, [], false, none⟩]
     (singleOptOptions _ _ .oneString (by simp) (matchGluedAbbr c w h1 h2)),
   liftNoSubs _ [] [] _ [kwCount] [] [⟨kwCount, [], false, none⟩]
     (singleOptOptions _ _ .equalSign (by simp) (matchEqAbbr c w)),
   liftNoSubs _ [] [] _ [kwCount] [] [⟨kwCount, [], false, none⟩]
     (singleOptOptions _ _ .colon (by simp) (matchColonAbbr c w))⟩

theorem c6_witness :
    parseVector 2 c2P [str "--count" ++ str "VAL"] = .ok (c2PWith (str "VAL"), []) :=
  (c6_separator_forms 'V' ['A', 'L'] (by decide) (by decide)).2.1
